import Mathlib

/-!
Reservation-form behaviours of `main.js`.

A shallow embedding of the reservation-form pipeline of `src/main.js`
(`formatPhoneNumber`, `validateField`, the submit handler of `initFormValidation`,
`handleFormSubmission`, `initDateRestrictions`, `showNotification`) together with the
parts of the host platform these functions call (string methods, the constraint
validation interface of form controls, `Date`).

JavaScript strings are modelled by `String`.  The only place where the difference
between UTF-16 code units and Unicode scalar values could matter is the phone
formatter, and there every character that is not an ASCII digit is deleted before a
length or an index is taken.
-/

namespace FoodWebsite

/-! ## Form controls -/

/-- A form control as far as `main.js` touches it.  `constraint` stands for the
constraints the page markup declares besides `required` (type shape, `pattern`,
length, range); the platform applies all of them to non-empty values only.
`customValidity` is the custom validity error message (`setCustomValidity`);
`isValid` and `isInvalid` record whether `classList` holds `is-valid` and
`is-invalid`. -/
structure Field where
  id : String
  type : String
  required : Bool
  constraint : String → Bool
  value : String
  customValidity : String
  isValid : Bool
  isInvalid : Bool

/-! ## Phone formatter -/

/-- The call `s.replace(/\D/g, '')`: every character other than `0`-`9` is removed. -/
def replaceNonDigits (s : String) : String :=
  ⟨s.data.filter Char.isDigit⟩

/-- The method `String.prototype.substring(start, end)`; `none` is an omitted `end`.
Both indices are clamped to the length and swapped when out of order. -/
def substring (s : String) (start : Nat) (stop : Option Nat) : String :=
  let len := s.data.length
  let finalStart := min start len
  let finalEnd := min (stop.getD len) len
  let lo := min finalStart finalEnd
  let hi := max finalStart finalEnd
  ⟨(s.data.take hi).drop lo⟩

/-- The value `formatPhoneNumber` computes from the raw text of the control
(lines 196-202). -/
def formatPhoneValue (raw : String) : String :=
  let value := replaceNonDigits raw
  if value.length ≥ 6 then
    substring value 0 (some 3) ++ "-" ++ substring value 3 (some 6) ++ "-"
      ++ substring value 6 (some 10)
  else if value.length ≥ 3 then
    substring value 0 (some 3) ++ "-" ++ substring value 3 none
  else
    value

/-- `formatPhoneNumber(input)`: rewrites the value of the control in place. -/
def formatPhoneNumber (input : Field) : Field :=
  { input with value := formatPhoneValue input.value }

/-- Number of hyphens in a string. -/
def hyphenCount (s : String) : Nat :=
  s.data.count '-'

/-- Number of digit characters in a string. -/
def digitCount (s : String) : Nat :=
  (s.data.filter Char.isDigit).length

/-- List form of the three layouts of `formatPhoneValue`, on the digit list. -/
def layout (d : List Char) : List Char :=
  if 6 ≤ d.length then
    d.take 3 ++ '-' :: ((d.take 6).drop 3 ++ '-' :: (d.take 10).drop 6)
  else if 3 ≤ d.length then
    d.take 3 ++ '-' :: d.drop 3
  else d

/-! ## Field validation -/

/-- Whether the current value meets the constraints declared in the markup: an empty
value is acceptable exactly when the control is not required, and a non-empty value
has to pass the declared shape tests. -/
def Field.satisfiesDeclared (f : Field) : Bool :=
  if f.value = "" then !f.required else f.constraint f.value

/-- The method `field.checkValidity()` of the host platform: the control is valid when
it suffers from no validity problem, that is, when the declared constraints hold and
the custom validity error message is the empty string. -/
def Field.checkValidity (f : Field) : Bool :=
  f.satisfiesDeclared && decide (f.customValidity = "")

/-- The method `field.setCustomValidity(message)`. -/
def Field.setCustomValidity (f : Field) (message : String) : Field :=
  { f with customValidity := message }

/-- `validateField(field)` (lines 171-190). -/
def validateField (field : Field) : Field :=
  let isValid := field.checkValidity
  let field :=
    if isValid then { field with isInvalid := false, isValid := true }
    else { field with isValid := false, isInvalid := true }
  if field.type = "email" ∧ isValid = false then
    field.setCustomValidity "Please enter a valid email address"
  else if field.type = "tel" ∧ isValid = false then
    field.setCustomValidity "Please enter a valid phone number"
  else
    field.setCustomValidity ""

/-! ## Notifications -/

/-- A toast in the notification container: its message and its severity. -/
structure Toast where
  message : String
  type : String
deriving DecidableEq

/-- `showNotification(message, type)`: appends one toast to the shared container. -/
def showNotification (message type : String) (container : List Toast) : List Toast :=
  container ++ [⟨message, type⟩]

/-- `getIconForType(type)`. -/
def getIconForType (type : String) : String :=
  if type = "success" then "check-circle"
  else if type = "warning" then "exclamation-triangle"
  else if type = "danger" then "exclamation-circle"
  else "info-circle"

/-! ## Dates (host platform: ECMAScript time values)

Time values are integers (milliseconds since the epoch, UTC); all the values that
occur are below `2 ^ 53` in size, so the arithmetic is exact. -/

/-- Milliseconds per day. -/
def msPerDay : Int := 86400000

/-- `Day(t)`: the day number of a time value. -/
def Day (t : Int) : Int := t / msPerDay

/-- `DaysInYear(y)`. -/
def DaysInYear (y : Int) : Int :=
  if y % 4 ≠ 0 then 365 else if y % 100 ≠ 0 then 366 else if y % 400 ≠ 0 then 365 else 366

/-- `DayFromYear(y)`: the day number of 1 January of year `y`. -/
def DayFromYear (y : Int) : Int :=
  365 * (y - 1970) + (y - 1969) / 4 - (y - 1901) / 100 + (y - 1601) / 400

/-- The year of a day number: the largest `y` with `DayFromYear y ≤ d`, computed from
an estimate that is off by at most one. -/
def YearFromDay (d : Int) : Int :=
  let y := 1970 + d * 400 / 146097
  if DayFromYear (y + 1) ≤ d then y + 1 else if DayFromYear y ≤ d then y else y - 1

/-- The leap day of year `y`: 1 in a leap year and 0 otherwise. -/
def leapDay (y : Int) : Int :=
  if DaysInYear y = 366 then 1 else 0

/-- `YearFromTime(t)`. -/
def YearFromTime (t : Int) : Int := YearFromDay (Day t)

/-- `InLeapYear(t)`. -/
def InLeapYear (t : Int) : Int := leapDay (YearFromTime t)

/-- `DayWithinYear(t)`. -/
def DayWithinYear (t : Int) : Int := Day t - DayFromYear (YearFromTime t)

/-- The table of `MonthFromTime`: the month (0 to 11) of day `w` within a year whose
leap day is `l`. -/
def monthTable (w l : Int) : Int :=
  if w < 31 then 0
  else if w < 59 + l then 1
  else if w < 90 + l then 2
  else if w < 120 + l then 3
  else if w < 151 + l then 4
  else if w < 181 + l then 5
  else if w < 212 + l then 6
  else if w < 243 + l then 7
  else if w < 273 + l then 8
  else if w < 304 + l then 9
  else if w < 334 + l then 10
  else 11

/-- The table of `DateFromTime`: the day of month `m` on which day `w` within the year
falls. -/
def dateTable (m w l : Int) : Int :=
  if m = 0 then w + 1
  else if m = 1 then w - 30
  else if m = 2 then w - 58 - l
  else if m = 3 then w - 89 - l
  else if m = 4 then w - 119 - l
  else if m = 5 then w - 150 - l
  else if m = 6 then w - 180 - l
  else if m = 7 then w - 211 - l
  else if m = 8 then w - 242 - l
  else if m = 9 then w - 272 - l
  else if m = 10 then w - 303 - l
  else w - 333 - l

/-- Days of a year with leap day `l` that precede month `m`. -/
def startTable (m l : Int) : Int :=
  if m = 0 then 0
  else if m = 1 then 31
  else if m = 2 then 59 + l
  else if m = 3 then 90 + l
  else if m = 4 then 120 + l
  else if m = 5 then 151 + l
  else if m = 6 then 181 + l
  else if m = 7 then 212 + l
  else if m = 8 then 243 + l
  else if m = 9 then 273 + l
  else if m = 10 then 304 + l
  else 334 + l

/-- Length of month `m` in a year with leap day `l`. -/
def lengthTable (m l : Int) : Int :=
  if m = 1 then 28 + l
  else if m = 3 ∨ m = 5 ∨ m = 8 ∨ m = 10 then 30
  else 31

/-- `MonthFromTime(t)`: 0 is January, 11 is December. -/
def MonthFromTime (t : Int) : Int := monthTable (DayWithinYear t) (InLeapYear t)

/-- `DateFromTime(t)`: the day of the month, from 1. -/
def DateFromTime (t : Int) : Int :=
  dateTable (MonthFromTime t) (DayWithinYear t) (InLeapYear t)

/-- `WeekDay(t)`: 0 is Sunday, 1 is Monday, 6 is Saturday. -/
def WeekDay (t : Int) : Int := (Day t + 4) % 7

/-- Number of days in month `mn` (0 to 11) of year `y`. -/
def DaysInMonth (y mn : Int) : Int := lengthTable mn (leapDay y)

/-- `MakeDay(year, month, date)`: months outside 0..11 carry into the year, and the
date counts on from the first of the month without being clamped to its length. -/
def MakeDay (year month date : Int) : Int :=
  let ym := year + month / 12
  let mn := month % 12
  DayFromYear ym + startTable mn (leapDay ym) + date - 1

/-- `MakeDate(day, time)`. -/
def MakeDate (day time : Int) : Int := day * msPerDay + time

/-- `TimeClip(t)`; `none` stands for `NaN`. -/
def TimeClip (t : Int) : Option Int :=
  if t.natAbs ≤ 8640000000000000 then some t else none

/-- The time zone of the browser: `LocalTZA t isUTC` is the local offset from UTC in
milliseconds, at UTC time `t` when `isUTC` holds and at local time `t` otherwise. -/
structure Env where
  LocalTZA : Int → Bool → Int

/-- `LocalTime(t)`. -/
def LocalTime (env : Env) (t : Int) : Int := t + env.LocalTZA t true

/-- `Date.prototype.getDay()`; `none` stands for `NaN`. -/
def getDay (env : Env) (tv : Option Int) : Option Int :=
  tv.map (fun t => WeekDay (LocalTime env t))

/-- Value of a run of decimal digits, `none` when a character is not a digit. -/
def digitsValue (cs : List Char) : Option Nat :=
  cs.foldl (fun acc c => acc.bind (fun n =>
    if c.isDigit then some (10 * n + (c.toNat - 48)) else none)) (some 0)

/-- The constructor call `new Date(value)` on the values a date control can hold: a
valid date string `YYYY-MM-DD` denotes midnight UTC of that day, and the empty string
gives an invalid date (`none`).  Strings of any other form are not values of a date
control and are treated as invalid. -/
def parseDate (value : String) : Option Int :=
  match value.data with
  | [y1, y2, y3, y4, '-', m1, m2, '-', d1, d2] =>
    match digitsValue [y1, y2, y3, y4], digitsValue [m1, m2], digitsValue [d1, d2] with
    | some y, some m, some d =>
      if 1 ≤ m ∧ m ≤ 12 ∧ 1 ≤ d ∧ (d : Int) ≤ DaysInMonth y ((m : Int) - 1) then
        TimeClip (MakeDate (MakeDay y ((m : Int) - 1) d) 0)
      else none
    | _, _, _ => none
  | _ => none

/-- The `change` listener of the date control (lines 317-325), on the control and the
notification container. -/
def dateChangeHandler (env : Env) (dateInput : Field) (toasts : List Toast) :
    Field × List Toast :=
  let selectedDate := parseDate dateInput.value
  let dayOfWeek := getDay env selectedDate
  if dayOfWeek = some 1 then
    ({ dateInput with value := "" },
      showNotification "Sorry, we are closed on Mondays. Please select another date."
        "warning" toasts)
  else
    (dateInput, toasts)

/-- A calendar date: year, month (0 to 11) and day of the month. -/
structure CalDate where
  year : Int
  month : Int
  date : Int
deriving DecidableEq

/-- The calendar date on which a time value falls, read in UTC. -/
def dateOfTime (t : Int) : CalDate :=
  ⟨YearFromTime t, MonthFromTime t, DateFromTime t⟩

/-- A calendar date that exists. -/
def CalDate.Valid (c : CalDate) : Prop :=
  0 ≤ c.month ∧ c.month ≤ 11 ∧ 1 ≤ c.date ∧ c.date ≤ DaysInMonth c.year c.month

/-- Day number of a calendar date; a day of the month past the end of the month
counts on into the following months. -/
def CalDate.dayNumber (c : CalDate) : Int :=
  DayFromYear c.year + startTable c.month (leapDay c.year) + c.date - 1

/-- The submit control: its label and its `disabled` flag. -/
structure Button where
  innerHTML : String
  disabled : Bool
deriving DecidableEq

/-- The page as far as the reservation form is concerned: the controls of
`#reservationForm`, whether the form carries the class `was-validated`, the submit
control, the notification container, and the pending 2000 ms timeouts of
`handleFormSubmission`, oldest first, each with the `originalText` its callback has
captured. -/
structure Page where
  fields : List Field
  wasValidated : Bool
  submitButton : Button
  toasts : List Toast
  timers : List String

/-- Modelled from the spec: the page markup, which declares the initial value of each
control, is not part of src/; the spec says that a reset leaves every field cleared,
so the initial value of every control is taken to be the empty string. -/
def defaultValue (_f : Field) : String := ""

/-- The effect of `form.reset()` on one control: the value returns to its initial
value; classes and the custom validity message are not touched. -/
def Field.reset (f : Field) : Field :=
  { f with value := defaultValue f }

/-- The method `form.checkValidity()`: every control of the form is valid. -/
def formCheckValidity (p : Page) : Bool :=
  p.fields.all Field.checkValidity

/-- The label shown while a submission is pending (line 215). -/
def loadingLabel : String :=
  "<i class=\x22fas fa-spinner fa-spin me-2\x22></i>Submitting..."

/-- The message of the success notification (line 220). -/
def successMessage : String :=
  "Reservation request submitted successfully! We\x27ll contact you within 24 hours."

/-- `handleFormSubmission(form)` up to the point where the timeout is set (lines
211-219 and 227). -/
def handleFormSubmission (p : Page) : Page :=
  let originalText := p.submitButton.innerHTML
  { p with
    submitButton := { innerHTML := loadingLabel, disabled := true }
    timers := p.timers ++ [originalText] }

/-- The callback that `handleFormSubmission` hands to `setTimeout` (lines 220-226). -/
def submissionTimeout (originalText : String) (p : Page) : Page :=
  { p with
    toasts := showNotification successMessage "success" p.toasts
    fields := p.fields.map Field.reset
    wasValidated := false
    submitButton := { innerHTML := originalText, disabled := false } }

/-- The `submit` listener of the form (lines 134-143). -/
def onSubmit (p : Page) : Page :=
  let p := if formCheckValidity p then handleFormSubmission p else p
  { p with wasValidated := true }

/-- The oldest pending timeout fires. -/
def fireTimeout (p : Page) : Page :=
  match p.timers with
  | [] => p
  | originalText :: rest => submissionTimeout originalText { p with timers := rest }

/-- Applies `f` to the element at position `i`. -/
def modifyAt {α : Type} (f : α → α) : Nat → List α → List α
  | _, [] => []
  | 0, a :: l => f a :: l
  | i + 1, a :: l => a :: modifyAt f i l

/-- The `blur` listener of a control (lines 148-150). -/
def blurHandler (input : Field) : Field :=
  validateField input

/-- The `input` listeners of a control in the order they were added (lines 152-156 and
162-164); `isPhone` says whether the control is the one `#phone` selects. -/
def inputHandler (isPhone : Bool) (input : Field) : Field :=
  let input := if input.isInvalid then validateField input else input
  if isPhone then formatPhoneNumber input else input

/-- The user leaves control `i`. -/
def onBlur (i : Nat) (p : Page) : Page :=
  { p with fields := modifyAt blurHandler i p.fields }

/-- The user changes the text of control `i` to `v`, and the `input` event is
dispatched. -/
def onInput (i : Nat) (v : String) (p : Page) : Page :=
  let isPhone := decide (p.fields.findIdx? (fun f => f.id == "phone") = some i)
  { p with fields := modifyAt (fun f => inputHandler isPhone { f with value := v }) i p.fields }

/-- The `change` event is dispatched on control `i`; the listener of
`initDateRestrictions` runs when the control is the one `#date` selects. -/
def onChange (env : Env) (i : Nat) (p : Page) : Page :=
  if p.fields.findIdx? (fun f => f.id == "date") = some i then
    match p.fields.get? i with
    | none => p
    | some f =>
      let r := dateChangeHandler env f p.toasts
      { p with fields := modifyAt (fun _ => r.1) i p.fields, toasts := r.2 }
  else p

/-- One event of the page.  A submit action needs the submit control to be enabled; a
timeout fires only when one is pending. -/
inductive Step (env : Env) : Page → Page → Prop
  | submit (p : Page) : p.submitButton.disabled = false → Step env p (onSubmit p)
  | timeout (p : Page) : p.timers ≠ [] → Step env p (fireTimeout p)
  | input (p : Page) (i : Nat) (v : String) : Step env p (onInput i v p)
  | blur (p : Page) (i : Nat) : Step env p (onBlur i p)
  | change (p : Page) (i : Nat) : Step env p (onChange env i p)

/-- The pages that a run of events leads to from `p0`. -/
inductive Reachable (env : Env) (p0 : Page) : Page → Prop
  | start : Reachable env p0 p0
  | step (p q : Page) : Reachable env p0 p → Step env p q → Reachable env p0 q

/-! ## Sample data -/

/-- Local time is UTC. -/
def utcZone : Env := ⟨fun _ _ => 0⟩

/-- Local time is five hours behind UTC. -/
def westZone : Env := ⟨fun _ _ => -18000000⟩

/-- A required email control, empty and not yet validated.  The shape test is a
stand-in that asks for an `@`. -/
def emailField : Field :=
  { id := "email", type := "email", required := true,
    constraint := fun v => v.data.contains '@',
    value := "", customValidity := "", isValid := false, isInvalid := false }

/-- A date control. -/
def dateField : Field :=
  { id := "date", type := "date", required := true, constraint := fun _ => true,
    value := "", customValidity := "", isValid := false, isInvalid := false }

/-- A page at rest with the two sample controls filled in. -/
def samplePage : Page :=
  { fields := [{ emailField with value := "guest@example.com" },
               { dateField with value := "2024-01-03" }],
    wasValidated := false,
    submitButton := { innerHTML := "Reserve Table", disabled := false },
    toasts := [],
    timers := [] }

/-- The sample page with the email control left empty. -/
def sampleInvalidPage : Page :=
  { samplePage with fields := [emailField, { dateField with value := "2024-01-03" }] }

/-! ## Phone formatter: theorems -/

theorem formatPhoneValue_samples :
    formatPhoneValue "12" = "12" ∧ formatPhoneValue "123" = "123-" ∧
    formatPhoneValue "555-12" = "555-12" ∧ formatPhoneValue "555-123" = "555-123-" ∧
    formatPhoneValue "(555) 123-4567 ext 89" = "555-123-4567" := by
  decide

theorem substring_data (s : String) (a b : Nat) (hab : a ≤ b) :
    (substring s a (some b)).data = (s.data.take b).drop a := by
  simp only [substring, Option.getD_some]
  rcases Nat.le_total b s.data.length with h | h
  · have h1 : min b s.data.length = b := Nat.min_eq_left h
    have h2 : min a s.data.length = a := Nat.min_eq_left (le_trans hab h)
    rw [h1, h2, Nat.min_eq_left hab, Nat.max_eq_right hab]
  · have h1 : min b s.data.length = s.data.length := Nat.min_eq_right h
    rw [h1, Nat.min_eq_left (Nat.min_le_right _ _), Nat.max_eq_right (Nat.min_le_right _ _)]
    rw [List.take_of_length_le (le_refl _), List.take_of_length_le h]
    rcases Nat.le_total a s.data.length with h3 | h3
    · rw [Nat.min_eq_left h3]
    · rw [Nat.min_eq_right h3, List.drop_of_length_le (le_refl _), List.drop_of_length_le h3]

theorem substring_none_data (s : String) (a : Nat) :
    (substring s a none).data = s.data.drop a := by
  simp only [substring, Option.getD_none, Nat.min_self]
  rw [Nat.min_eq_left (Nat.min_le_right _ _), Nat.max_eq_right (Nat.min_le_right _ _)]
  rw [List.take_of_length_le (le_refl _)]
  rcases Nat.le_total a s.data.length with h3 | h3
  · rw [Nat.min_eq_left h3]
  · rw [Nat.min_eq_right h3, List.drop_of_length_le (le_refl _), List.drop_of_length_le h3]

theorem formatPhoneValue_data (raw : String) :
    (formatPhoneValue raw).data = layout (raw.data.filter Char.isDigit) := by
  unfold formatPhoneValue layout
  simp only [ge_iff_le, replaceNonDigits, String.length]
  split_ifs with h1 h2
  · simp [String.data_append, substring_data, substring_none_data]
  · simp [String.data_append, substring_data, substring_none_data]
  · rfl


theorem take_split (d : List Char) :
    d.take 3 ++ ((d.take 6).drop 3 ++ (d.take 10).drop 6) = d.take 10 := by
  have e1 : d.take 3 = ((d.take 10).take 6).take 3 := by
    rw [List.take_take, List.take_take]; rfl
  have e2 : d.take 6 = (d.take 10).take 6 := by
    rw [List.take_take]; rfl
  rw [e1, e2, ← List.append_assoc, List.take_append_drop, List.take_append_drop]

theorem filter_digits_self (d : List Char) (hd : ∀ c ∈ d, c.isDigit = true) :
    d.filter Char.isDigit = d :=
  List.filter_eq_self.mpr hd

theorem layout_filter (d : List Char) (hd : ∀ c ∈ d, c.isDigit = true) :
    (layout d).filter Char.isDigit = d.take 10 := by
  have h3 : ∀ c ∈ d.take 3, c.isDigit = true := fun c hc => hd c (List.mem_of_mem_take hc)
  have h6 : ∀ c ∈ (d.take 6).drop 3, c.isDigit = true :=
    fun c hc => hd c (List.mem_of_mem_take (List.mem_of_mem_drop hc))
  have h10 : ∀ c ∈ (d.take 10).drop 6, c.isDigit = true :=
    fun c hc => hd c (List.mem_of_mem_take (List.mem_of_mem_drop hc))
  have hd3 : ∀ c ∈ d.drop 3, c.isDigit = true := fun c hc => hd c (List.mem_of_mem_drop hc)
  have hy : Char.isDigit '-' = false := by decide
  unfold layout
  split_ifs with a b
  · rw [List.filter_append, List.filter_cons_of_neg (by simp [hy]), List.filter_append,
      List.filter_cons_of_neg (by simp [hy]), filter_digits_self _ h3, filter_digits_self _ h6,
      filter_digits_self _ h10, take_split]
  · rw [List.filter_append, List.filter_cons_of_neg (by simp [hy]), filter_digits_self _ h3,
      filter_digits_self _ hd3, List.take_append_drop]
    exact (List.take_of_length_le (by omega)).symm
  · rw [filter_digits_self _ hd]
    exact (List.take_of_length_le (by omega)).symm

theorem layout_take (d : List Char) : layout (d.take 10) = layout d := by
  unfold layout
  have e1 : (d.take 10).take 3 = d.take 3 := by rw [List.take_take]; rfl
  have e2 : (d.take 10).take 6 = d.take 6 := by rw [List.take_take]; rfl
  have e3 : (d.take 10).take 10 = d.take 10 := by rw [List.take_take]; rfl
  rw [e1, e2, e3, List.length_take]
  by_cases a : 6 ≤ d.length
  · rw [if_pos a, if_pos (by omega)]
  · rw [if_neg a, if_neg (by omega)]
    have : d.take 10 = d := List.take_of_length_le (by omega)
    rw [this, Nat.min_eq_right (by omega)]

theorem count_hyphen_digits (d : List Char) (hd : ∀ c ∈ d, c.isDigit = true) :
    d.count '-' = 0 := by
  rw [List.count_eq_zero]
  intro h
  have := hd _ h
  revert this
  decide

theorem layout_count (d : List Char) (hd : ∀ c ∈ d, c.isDigit = true) :
    (layout d).count '-' = if 6 ≤ d.length then 2 else if 3 ≤ d.length then 1 else 0 := by
  have h3 : (d.take 3).count '-' = 0 :=
    count_hyphen_digits _ (fun c hc => hd c (List.mem_of_mem_take hc))
  have h6 : ((d.take 6).drop 3).count '-' = 0 :=
    count_hyphen_digits _ (fun c hc => hd c (List.mem_of_mem_take (List.mem_of_mem_drop hc)))
  have h10 : ((d.take 10).drop 6).count '-' = 0 :=
    count_hyphen_digits _ (fun c hc => hd c (List.mem_of_mem_take (List.mem_of_mem_drop hc)))
  have hd3 : (d.drop 3).count '-' = 0 :=
    count_hyphen_digits _ (fun c hc => hd c (List.mem_of_mem_drop hc))
  unfold layout
  split_ifs with a b
  · rw [List.count_append, List.count_cons_self, List.count_append, List.count_cons_self,
      h3, h6, h10]
  · rw [List.count_append, List.count_cons_self, h3, hd3]
  · exact count_hyphen_digits d hd

theorem digits_of_filter (l : List Char) : ∀ c ∈ l.filter Char.isDigit, c.isDigit = true :=
  fun _ hc => (List.mem_filter.mp hc).2

/-- C1. `formatPhoneNumber` is idempotent: formatting a control that has just been
formatted leaves it as it is, whatever the raw text was. -/
theorem formatPhoneNumber_idempotent (input : Field) :
    formatPhoneNumber (formatPhoneNumber input) = formatPhoneNumber input := by
  have key : ∀ raw : String, formatPhoneValue (formatPhoneValue raw) = formatPhoneValue raw := by
    intro raw
    apply String.ext
    rw [formatPhoneValue_data, formatPhoneValue_data,
      layout_filter _ (digits_of_filter raw.data), layout_take]
  simp only [formatPhoneNumber, key]

/-- C2. With `n` the number of digit characters of the raw text, the formatted value
holds exactly two hyphens iff `n ≥ 6`, exactly one iff `3 ≤ n < 6`, and none iff
`n < 3`. -/
theorem formatPhoneNumber_hyphens (input : Field) :
    (hyphenCount (formatPhoneNumber input).value = 2 ↔ 6 ≤ digitCount input.value) ∧
    (hyphenCount (formatPhoneNumber input).value = 1 ↔
      3 ≤ digitCount input.value ∧ digitCount input.value < 6) ∧
    (hyphenCount (formatPhoneNumber input).value = 0 ↔ digitCount input.value < 3) := by
  have h : hyphenCount (formatPhoneNumber input).value =
      if 6 ≤ digitCount input.value then 2 else if 3 ≤ digitCount input.value then 1 else 0 := by
    simp only [hyphenCount, formatPhoneNumber, digitCount, formatPhoneValue_data]
    exact layout_count _ (digits_of_filter input.value.data)
  rw [h]
  by_cases a : 6 ≤ digitCount input.value
  · rw [if_pos a]; omega
  · rw [if_neg a]
    by_cases b : 3 ≤ digitCount input.value
    · rw [if_pos b]; omega
    · rw [if_neg b]; omega

theorem validateField_flags (f : Field) :
    (validateField f).isValid = f.checkValidity ∧
    (validateField f).isInvalid = !f.checkValidity ∧
    (validateField f).value = f.value ∧ (validateField f).type = f.type ∧
    (validateField f).required = f.required ∧ (validateField f).constraint = f.constraint := by
  unfold validateField Field.setCustomValidity
  cases h : f.checkValidity
  · simp
    split_ifs <;> simp
  · simp

theorem validateField_message_of_invalid (f : Field) (h : f.checkValidity = false) :
    (f.type = "email" →
      (validateField f).customValidity = "Please enter a valid email address") ∧
    (f.type = "tel" →
      (validateField f).customValidity = "Please enter a valid phone number") := by
  unfold validateField Field.setCustomValidity
  simp only [h]
  constructor
  · intro ht
    simp [ht]
  · intro ht
    simp [ht]

/-- Once an email or phone control has been found invalid, `validateField` keeps
marking it invalid whatever value it is given afterwards. -/
theorem validateField_sticky (f : Field) (v : String)
    (hk : f.type = "email" ∨ f.type = "tel") (h : f.checkValidity = false) :
    (validateField { validateField f with value := v }).isValid = false ∧
    (validateField { validateField f with value := v }).isInvalid = true := by
  obtain ⟨he, ht⟩ := validateField_message_of_invalid f h
  have hc : Field.checkValidity { validateField f with value := v } = false := by
    unfold Field.checkValidity
    rcases hk with hk | hk
    · simp [he hk]
    · simp [ht hk]
  obtain ⟨h1, h2, -⟩ := validateField_flags { validateField f with value := v }
  rw [h1, h2, hc]
  exact ⟨rfl, rfl⟩

/-- For a control that is neither an email nor a phone control and carries no custom
message, the indicator that `validateField` leaves reflects the current value alone,
and the control still carries no custom message afterwards. -/
theorem validateField_reflects_value (f : Field)
    (hk : f.type ≠ "email" ∧ f.type ≠ "tel") (hc : f.customValidity = "") :
    (validateField f).isValid = f.satisfiesDeclared ∧
    (validateField f).isInvalid = !f.satisfiesDeclared ∧
    (validateField f).customValidity = "" := by
  obtain ⟨h1, h2, -⟩ := validateField_flags f
  have hv : f.checkValidity = f.satisfiesDeclared := by
    simp [Field.checkValidity, hc]
  refine ⟨by rw [h1, hv], by rw [h2, hv], ?_⟩
  unfold validateField Field.setCustomValidity
  cases f.checkValidity <;> simp [hk.1, hk.2]

/-- C4. A required email control is validated while empty and is then corrected to a
value that meets every declared constraint; the second `validateField` call still
leaves it marked invalid and not valid, because the custom message attached by the
first call makes `checkValidity` fail from then on. -/
theorem validateField_corrected_value_stays_invalid :
    Field.satisfiesDeclared { validateField emailField with value := "guest@example.com" }
      = true ∧
    (validateField { validateField emailField with value := "guest@example.com" }).isValid
      = false ∧
    (validateField { validateField emailField with value := "guest@example.com" }).isInvalid
      = true := by
  decide

/-- C10 (as stated, refuted). For a required email control, the message attached when
it is empty and the message attached when it holds a non-empty text of the wrong
shape are one and the same. -/
theorem validateField_message_not_distinct :
    (validateField { emailField with value := "" }).customValidity =
      (validateField { emailField with value := "guest" }).customValidity ∧
    Field.satisfiesDeclared { emailField with value := "" } = false ∧
    Field.satisfiesDeclared { emailField with value := "guest" } = false := by
  decide

/-- C10 (amended). For every required control of kind email or phone, `validateField`
attaches the same message whether the control is empty or holds a non-empty value of
the wrong shape: the email message for an email control and the phone message for a
phone control. -/
theorem validateField_same_message (f : Field) (v : String)
    (hk : f.type = "email" ∨ f.type = "tel")
    (hreq : f.required = true) (hv : v ≠ "") (hshape : f.constraint v = false) :
    (validateField { f with value := "" }).customValidity =
      (validateField { f with value := v }).customValidity ∧
    (validateField { f with value := v }).customValidity =
      (if f.type = "email" then "Please enter a valid email address"
       else "Please enter a valid phone number") := by
  have h1 : Field.checkValidity { f with value := "" } = false := by
    simp [Field.checkValidity, Field.satisfiesDeclared, hreq]
  have h2 : Field.checkValidity { f with value := v } = false := by
    simp [Field.checkValidity, Field.satisfiesDeclared, hv, hshape]
  obtain ⟨e1, t1⟩ := validateField_message_of_invalid _ h1
  obtain ⟨e2, t2⟩ := validateField_message_of_invalid _ h2
  rcases hk with hk | hk
  · rw [e1 hk, e2 hk, if_pos hk]
    exact ⟨rfl, rfl⟩
  · have hne : f.type ≠ "email" := by
      rw [hk]
      decide
    rw [t1 hk, t2 hk, if_neg hne]
    exact ⟨rfl, rfl⟩

/-- Instance of C10 (amended) on the sample email control. -/
theorem validateField_same_message_witness :
    (validateField { emailField with value := "" }).customValidity =
      (validateField { emailField with value := "guest" }).customValidity ∧
    (validateField { emailField with value := "guest" }).customValidity =
      (if emailField.type = "email" then "Please enter a valid email address"
       else "Please enter a valid phone number") :=
  validateField_same_message emailField "guest" (Or.inl rfl) rfl (by decide) (by decide)

/-! ## Submission: theorems -/

theorem modifyAt_length {α : Type} (f : α → α) (i : Nat) (l : List α) :
    (modifyAt f i l).length = l.length := by
  induction l generalizing i with
  | nil => cases i <;> rfl
  | cons a l ih =>
    cases i with
    | zero => rfl
    | succ i => simp [modifyAt, ih]

/-- What a step leaves alone unless it is a submit action or a timeout. -/
theorem onInput_frame (i : Nat) (v : String) (p : Page) :
    (onInput i v p).timers = p.timers ∧ (onInput i v p).submitButton = p.submitButton ∧
    (onInput i v p).toasts = p.toasts ∧ (onInput i v p).wasValidated = p.wasValidated :=
  ⟨rfl, rfl, rfl, rfl⟩

theorem onBlur_frame (i : Nat) (p : Page) :
    (onBlur i p).timers = p.timers ∧ (onBlur i p).submitButton = p.submitButton ∧
    (onBlur i p).toasts = p.toasts ∧ (onBlur i p).wasValidated = p.wasValidated :=
  ⟨rfl, rfl, rfl, rfl⟩

theorem onChange_frame (env : Env) (i : Nat) (p : Page) :
    (onChange env i p).timers = p.timers ∧
    (onChange env i p).submitButton = p.submitButton ∧
    (onChange env i p).wasValidated = p.wasValidated := by
  unfold onChange
  split_ifs
  · cases p.fields.get? i <;> exact ⟨rfl, rfl, rfl⟩
  · exact ⟨rfl, rfl, rfl⟩

/-- The invariant of the submission controller. -/
theorem step_invariant (env : Env) (p q : Page) (hs : Step env p q)
    (hp : p.timers.length ≤ 1 ∧ (p.timers ≠ [] → p.submitButton.disabled = true)) :
    q.timers.length ≤ 1 ∧ (q.timers ≠ [] → q.submitButton.disabled = true) := by
  obtain ⟨hlen, hdis⟩ := hp
  cases hs with
  | submit hen =>
    have hidle : p.timers = [] := by
      by_contra hne
      rw [hdis hne] at hen
      exact Bool.noConfusion hen
    unfold onSubmit handleFormSubmission
    cases formCheckValidity p <;> simp [hidle]
  | timeout hne =>
    unfold fireTimeout
    cases ht : p.timers with
    | nil => exact absurd ht hne
    | cons t rest =>
      have hrest : rest = [] := by
        rw [ht] at hlen
        simp only [List.length_cons] at hlen
        exact List.eq_nil_of_length_eq_zero (by omega)
      simp [submissionTimeout, hrest]
  | input i v =>
    obtain ⟨h1, h2, -⟩ := onInput_frame i v p
    rw [h1, h2]
    exact ⟨hlen, hdis⟩
  | blur i =>
    obtain ⟨h1, h2, -⟩ := onBlur_frame i p
    rw [h1, h2]
    exact ⟨hlen, hdis⟩
  | change i =>
    obtain ⟨h1, h2, -⟩ := onChange_frame env i p
    rw [h1, h2]
    exact ⟨hlen, hdis⟩

/-- C5. From a page with no submission in flight, every run of events (submit actions,
which need the submit control enabled, timeouts, edits, blurs, date changes) leads
only to pages with at most one pending attempt, and whenever an attempt is pending the
submit control is disabled, so that no step out of a pending page starts another. -/
theorem submission_at_most_one_in_flight (env : Env) (p0 p : Page) (h0 : p0.timers = [])
    (hr : Reachable env p0 p) :
    p.timers.length ≤ 1 ∧ (p.timers ≠ [] → p.submitButton.disabled = true) ∧
    (∀ q, Step env p q → p.timers ≠ [] → q.timers.length ≤ p.timers.length) := by
  have inv : p.timers.length ≤ 1 ∧ (p.timers ≠ [] → p.submitButton.disabled = true) := by
    induction hr with
    | start => simp [h0]
    | step p q _ hs ih => exact step_invariant env p q hs ih
  refine ⟨inv.1, inv.2, ?_⟩
  intro q hs hne
  have hq := (step_invariant env p q hs inv).1
  have hpos : 0 < p.timers.length := List.length_pos.mpr hne
  omega

/-- Instance of C5: the sample page after one submit action. -/
theorem submission_at_most_one_in_flight_witness :
    (onSubmit samplePage).timers.length ≤ 1 ∧
    ((onSubmit samplePage).timers ≠ [] → (onSubmit samplePage).submitButton.disabled = true) ∧
    (∀ q, Step utcZone (onSubmit samplePage) q → (onSubmit samplePage).timers ≠ [] →
      q.timers.length ≤ (onSubmit samplePage).timers.length) :=
  submission_at_most_one_in_flight utcZone samplePage (onSubmit samplePage) rfl
    (Reachable.step samplePage (onSubmit samplePage) Reachable.start
      (Step.submit samplePage rfl))

/-- C6. A submit action on a form whose aggregate validity is true disables the submit
control, shows the loading label, raises no notification and registers one attempt
that has captured the label shown before.  When the timeout of that attempt fires, on
whatever page the edits made in the meantime have produced, the control is enabled
again with exactly the captured label, every field value is cleared, the
`was-validated` flag is cleared, and exactly one notification has been added, of
severity success. -/
theorem submit_valid_form (p : Page) (hvalid : formCheckValidity p = true) :
    (onSubmit p).submitButton.disabled = true ∧
    (onSubmit p).submitButton.innerHTML = loadingLabel ∧
    (onSubmit p).toasts = p.toasts ∧
    (onSubmit p).timers = p.timers ++ [p.submitButton.innerHTML] ∧
    (p.timers = [] → ∀ r : Page, r.timers = (onSubmit p).timers →
      (fireTimeout r).submitButton.disabled = false ∧
      (fireTimeout r).submitButton.innerHTML = p.submitButton.innerHTML ∧
      (∀ f ∈ (fireTimeout r).fields, f.value = "") ∧
      (fireTimeout r).fields.length = r.fields.length ∧
      (fireTimeout r).wasValidated = false ∧
      (fireTimeout r).toasts = r.toasts ++ [⟨successMessage, "success"⟩] ∧
      (fireTimeout r).timers = []) := by
  have hq : onSubmit p = { handleFormSubmission p with wasValidated := true } := by
    simp [onSubmit, hvalid]
  rw [hq]
  refine ⟨rfl, rfl, rfl, rfl, ?_⟩
  intro hidle r hr
  have hr2 : r.timers = [p.submitButton.innerHTML] := by
    rw [hr]
    simp [handleFormSubmission, hidle]
  unfold fireTimeout
  rw [hr2]
  refine ⟨rfl, rfl, ?_, ?_, rfl, rfl, rfl⟩
  · intro f hf
    simp only [submissionTimeout, List.mem_map] at hf
    obtain ⟨g, -, rfl⟩ := hf
    rfl
  · simp [submissionTimeout]

/-- Instance of C6 on the sample page. -/
theorem submit_valid_form_witness :
    (onSubmit samplePage).submitButton.disabled = true ∧
    (onSubmit samplePage).submitButton.innerHTML = loadingLabel ∧
    (onSubmit samplePage).toasts = samplePage.toasts ∧
    (onSubmit samplePage).timers = samplePage.timers ++ [samplePage.submitButton.innerHTML] ∧
    (samplePage.timers = [] → ∀ r : Page, r.timers = (onSubmit samplePage).timers →
      (fireTimeout r).submitButton.disabled = false ∧
      (fireTimeout r).submitButton.innerHTML = samplePage.submitButton.innerHTML ∧
      (∀ f ∈ (fireTimeout r).fields, f.value = "") ∧
      (fireTimeout r).fields.length = r.fields.length ∧
      (fireTimeout r).wasValidated = false ∧
      (fireTimeout r).toasts = r.toasts ++ [⟨successMessage, "success"⟩] ∧
      (fireTimeout r).timers = []) :=
  submit_valid_form samplePage (by decide)

/-- C7. A submit action on a form whose aggregate validity is false creates no
attempt (so an idle controller stays idle), leaves the submit control, every field and
the notifications as they were, and sets the `was-validated` flag. -/
theorem submit_invalid_form (p : Page) (hinvalid : formCheckValidity p = false) :
    (onSubmit p).timers = p.timers ∧
    (onSubmit p).submitButton = p.submitButton ∧
    (onSubmit p).fields = p.fields ∧
    (onSubmit p).toasts = p.toasts ∧
    (onSubmit p).wasValidated = true := by
  simp [onSubmit, hinvalid]

/-- Instance of C7 on the sample page with the email control left empty. -/
theorem submit_invalid_form_witness :
    (onSubmit sampleInvalidPage).timers = sampleInvalidPage.timers ∧
    (onSubmit sampleInvalidPage).submitButton = sampleInvalidPage.submitButton ∧
    (onSubmit sampleInvalidPage).fields = sampleInvalidPage.fields ∧
    (onSubmit sampleInvalidPage).toasts = sampleInvalidPage.toasts ∧
    (onSubmit sampleInvalidPage).wasValidated = true :=
  submit_invalid_form sampleInvalidPage (by decide)

/-! ## Dates: theorems -/

theorem DayFromYear_succ (y : Int) : DayFromYear (y + 1) = DayFromYear y + DaysInYear y := by
  unfold DayFromYear DaysInYear
  split_ifs <;> omega

/-- `YearFromDay` meets the definition of `YearFromTime`: the year it returns starts on
or before the day, and the next year starts after it. -/
theorem YearFromDay_spec (d : Int) :
    DayFromYear (YearFromDay d) ≤ d ∧ d < DayFromYear (YearFromDay d + 1) := by
  unfold YearFromDay
  simp only
  split_ifs with h1 h2
  · refine ⟨h1, ?_⟩
    unfold DayFromYear at *
    omega
  · exact ⟨h2, by omega⟩
  · refine ⟨?_, ?_⟩
    · unfold DayFromYear at *
      omega
    · rw [show 1970 + d * 400 / 146097 - 1 + 1 = 1970 + d * 400 / 146097 by ring]
      omega

theorem DayFromYear_mono (a b : Int) (h : a ≤ b) : DayFromYear a ≤ DayFromYear b := by
  unfold DayFromYear
  omega

theorem YearFromDay_unique (d y : Int) (h1 : DayFromYear y ≤ d)
    (h2 : d < DayFromYear (y + 1)) : YearFromDay d = y := by
  have s := YearFromDay_spec d
  by_contra hne
  rcases lt_or_gt_of_ne hne with h | h
  · have := DayFromYear_mono (YearFromDay d + 1) y (by omega)
    omega
  · have := DayFromYear_mono (y + 1) (YearFromDay d) (by omega)
    omega

theorem leap_cases (y : Int) :
    (leapDay y = 0 ∨ leapDay y = 1) ∧ DaysInYear y = 365 + leapDay y := by
  unfold leapDay DaysInYear
  split_ifs <;> omega

/-- The month table read as twelve intervals of days within the year. -/
theorem monthTable_cases (w l : Int) :
    (w < 31 ∧ monthTable w l = 0) ∨
    (31 ≤ w ∧ w < 59 + l ∧ monthTable w l = 1) ∨
    (59 + l ≤ w ∧ w < 90 + l ∧ monthTable w l = 2) ∨
    (90 + l ≤ w ∧ w < 120 + l ∧ monthTable w l = 3) ∨
    (120 + l ≤ w ∧ w < 151 + l ∧ monthTable w l = 4) ∨
    (151 + l ≤ w ∧ w < 181 + l ∧ monthTable w l = 5) ∨
    (181 + l ≤ w ∧ w < 212 + l ∧ monthTable w l = 6) ∨
    (212 + l ≤ w ∧ w < 243 + l ∧ monthTable w l = 7) ∨
    (243 + l ≤ w ∧ w < 273 + l ∧ monthTable w l = 8) ∨
    (273 + l ≤ w ∧ w < 304 + l ∧ monthTable w l = 9) ∨
    (304 + l ≤ w ∧ w < 334 + l ∧ monthTable w l = 10) ∨
    (334 + l ≤ w ∧ monthTable w l = 11) := by
  unfold monthTable
  by_cases c0 : w < 31
  · rw [if_pos c0]
    exact Or.inl ⟨c0, rfl⟩
  rw [if_neg c0]
  by_cases c1 : w < 59 + l
  · rw [if_pos c1]
    exact Or.inr (Or.inl ⟨by omega, c1, rfl⟩)
  rw [if_neg c1]
  by_cases c2 : w < 90 + l
  · rw [if_pos c2]
    exact Or.inr (Or.inr (Or.inl ⟨by omega, c2, rfl⟩))
  rw [if_neg c2]
  by_cases c3 : w < 120 + l
  · rw [if_pos c3]
    exact Or.inr (Or.inr (Or.inr (Or.inl ⟨by omega, c3, rfl⟩)))
  rw [if_neg c3]
  by_cases c4 : w < 151 + l
  · rw [if_pos c4]
    exact Or.inr (Or.inr (Or.inr (Or.inr (Or.inl ⟨by omega, c4, rfl⟩))))
  rw [if_neg c4]
  by_cases c5 : w < 181 + l
  · rw [if_pos c5]
    exact Or.inr (Or.inr (Or.inr (Or.inr (Or.inr (Or.inl ⟨by omega, c5, rfl⟩)))))
  rw [if_neg c5]
  by_cases c6 : w < 212 + l
  · rw [if_pos c6]
    exact Or.inr (Or.inr (Or.inr (Or.inr (Or.inr (Or.inr (Or.inl ⟨by omega, c6, rfl⟩))))))
  rw [if_neg c6]
  by_cases c7 : w < 243 + l
  · rw [if_pos c7]
    exact Or.inr (Or.inr (Or.inr (Or.inr (Or.inr (Or.inr (Or.inr (Or.inl ⟨by omega, c7, rfl⟩)))))))
  rw [if_neg c7]
  by_cases c8 : w < 273 + l
  · rw [if_pos c8]
    exact Or.inr (Or.inr (Or.inr (Or.inr (Or.inr (Or.inr (Or.inr (Or.inr (Or.inl ⟨by omega, c8, rfl⟩))))))))
  rw [if_neg c8]
  by_cases c9 : w < 304 + l
  · rw [if_pos c9]
    exact Or.inr (Or.inr (Or.inr (Or.inr (Or.inr (Or.inr (Or.inr (Or.inr (Or.inr (Or.inl ⟨by omega, c9, rfl⟩)))))))))
  rw [if_neg c9]
  by_cases c10 : w < 334 + l
  · rw [if_pos c10]
    exact Or.inr (Or.inr (Or.inr (Or.inr (Or.inr (Or.inr (Or.inr (Or.inr (Or.inr (Or.inr (Or.inl ⟨by omega, c10, rfl⟩))))))))))
  rw [if_neg c10]
  exact Or.inr (Or.inr (Or.inr (Or.inr (Or.inr (Or.inr (Or.inr (Or.inr (Or.inr (Or.inr (Or.inr ⟨by omega, rfl⟩))))))))))

theorem month_cases (m : Int) (h0 : 0 ≤ m) (h1 : m ≤ 11) :
    m = 0 ∨ m = 1 ∨ m = 2 ∨ m = 3 ∨ m = 4 ∨ m = 5 ∨ m = 6 ∨ m = 7 ∨ m = 8 ∨ m = 9 ∨ m = 10 ∨ m = 11 := by
  omega

/-- From a day within the year to its month and day of the month. -/
theorem table_forward (w l : Int) (h0 : 0 ≤ w) (h1 : w < 365 + l) :
    0 ≤ monthTable w l ∧ monthTable w l ≤ 11 ∧
    1 ≤ dateTable (monthTable w l) w l ∧
    dateTable (monthTable w l) w l ≤ lengthTable (monthTable w l) l ∧
    startTable (monthTable w l) l + dateTable (monthTable w l) w l - 1 = w := by
  rcases monthTable_cases w l with
    ⟨a, hm⟩ | ⟨a, b, hm⟩ | ⟨a, b, hm⟩ | ⟨a, b, hm⟩ | ⟨a, b, hm⟩ | ⟨a, b, hm⟩ | ⟨a, b, hm⟩ | ⟨a, b, hm⟩ | ⟨a, b, hm⟩ | ⟨a, b, hm⟩ | ⟨a, b, hm⟩ | ⟨a, hm⟩ <;>
    rw [hm] <;>
    simp only [startTable, lengthTable, dateTable, ↓reduceIte, Int.reduceEq, or_self,
      or_false, false_or] <;>
    omega

/-- From a month and a day of the month to the day within the year, and back. -/
theorem table_backward (m d l : Int) (hl : l = 0 ∨ l = 1) (hm0 : 0 ≤ m) (hm1 : m ≤ 11)
    (hd0 : 1 ≤ d) (hd1 : d ≤ lengthTable m l) :
    0 ≤ startTable m l + d - 1 ∧ startTable m l + d - 1 < 365 + l ∧
    monthTable (startTable m l + d - 1) l = m ∧
    dateTable m (startTable m l + d - 1) l = d := by
  have hc := monthTable_cases (startTable m l + d - 1) l
  rcases month_cases m hm0 hm1 with
    rfl | rfl | rfl | rfl | rfl | rfl | rfl | rfl | rfl | rfl | rfl | rfl <;>
    simp only [startTable, lengthTable, dateTable, ↓reduceIte, Int.reduceEq, or_self,
      or_false, false_or] at hd1 hc ⊢ <;>
    omega

theorem DayFromYear_next (y : Int) : DayFromYear (y + 1) = DayFromYear y + 365 + leapDay y := by
  rw [DayFromYear_succ, (leap_cases y).2]
  omega

/-- Every time value falls on a calendar date that exists, and the day number of that
date is the day of the time value. -/
theorem dateOfTime_valid (t : Int) :
    (dateOfTime t).Valid ∧ (dateOfTime t).dayNumber = Day t := by
  have s := YearFromDay_spec (Day t)
  rw [DayFromYear_next] at s
  have f := table_forward (Day t - DayFromYear (YearFromDay (Day t)))
    (leapDay (YearFromDay (Day t))) (by omega) (by omega)
  simp only [dateOfTime, CalDate.Valid, CalDate.dayNumber, DateFromTime, MonthFromTime,
    DayWithinYear, InLeapYear, YearFromTime, DaysInMonth]
  omega

/-- A time value whose day is the day number of an existing calendar date falls on that
date. -/
theorem dateOfTime_of_dayNumber (c : CalDate) (hc : c.Valid) (t : Int)
    (ht : Day t = c.dayNumber) : dateOfTime t = c := by
  obtain ⟨y, m, d⟩ := c
  obtain ⟨hm0, hm1, hd0, hd1⟩ := hc
  simp only [DaysInMonth] at hm0 hm1 hd0 hd1
  simp only [CalDate.dayNumber] at ht
  have b := table_backward m d (leapDay y) (leap_cases y).1 hm0 hm1 hd0 hd1
  have hyear : YearFromDay (Day t) = y := by
    apply YearFromDay_unique
    · omega
    · rw [DayFromYear_next]
      omega
  have hw : Day t - DayFromYear y = startTable m (leapDay y) + d - 1 := by omega
  simp only [dateOfTime, DateFromTime, MonthFromTime, DayWithinYear, InLeapYear,
    YearFromTime, hyear, hw, b.2.2.1, b.2.2.2]

theorem dateOfTime_congr (t u : Int) (h : Day t = Day u) : dateOfTime t = dateOfTime u :=
  dateOfTime_of_dayNumber (dateOfTime u) (dateOfTime_valid u).1 t
    (by rw [h, (dateOfTime_valid u).2])

/-- With a constant offset the listener decides on the weekday of the local instant
that corresponds to midnight UTC of the selected date. -/
theorem dateChangeHandler_constant_offset (env : Env) (off : Int)
    (hoff : ∀ t b, env.LocalTZA t b = off) (f : Field) (toasts : List Toast) (t : Int)
    (hp : parseDate f.value = some t) :
    dateChangeHandler env f toasts =
      if WeekDay (t + off) = 1 then
        ({ f with value := "" },
          toasts ++ [⟨"Sorry, we are closed on Mondays. Please select another date.",
            "warning"⟩])
      else (f, toasts) := by
  simp [dateChangeHandler, hp, getDay, LocalTime, hoff, showNotification]

/-- A value that does not parse raises nothing and is left as it is. -/
theorem dateChangeHandler_invalid_date (env : Env) (f : Field) (toasts : List Toast)
    (hp : parseDate f.value = none) : dateChangeHandler env f toasts = (f, toasts) := by
  simp [dateChangeHandler, hp, getDay]

/-- C8. In a zone five hours behind UTC the listener lets Monday 1 January 2024
through, with no notification and the value kept, and rejects Tuesday 2 January 2024:
it clears the value and raises the warning about Mondays.  The empty value raises
nothing. -/
theorem dateChangeHandler_behind_utc :
    (parseDate "2024-01-01").map WeekDay = some 1 ∧
    (dateChangeHandler westZone { dateField with value := "2024-01-01" } []).1.value
      = "2024-01-01" ∧
    (dateChangeHandler westZone { dateField with value := "2024-01-01" } []).2 = [] ∧
    (parseDate "2024-01-02").map WeekDay = some 2 ∧
    (dateChangeHandler westZone { dateField with value := "2024-01-02" } []).1.value = "" ∧
    (dateChangeHandler westZone { dateField with value := "2024-01-02" } []).2 =
      [⟨"Sorry, we are closed on Mondays. Please select another date.", "warning"⟩] ∧
    (dateChangeHandler westZone { dateField with value := "" } []).2 = [] := by
  decide

end FoodWebsite
